import Mathlib

/-!
Shallow embedding of the media-assembly pipeline in `src/app.py`
(image + audio → video via ffmpeg subprocess calls).

Modelling conventions:
* Every external subprocess invocation is represented by an outcome record
  (did it time out, its exit code, and — for encoders — whether the output
  file exists afterwards and its size).  The Python code inspects exactly
  these observables, so each Python decision becomes a total Lean function
  of the outcome records.
* Audio durations are modelled as rationals (`ℚ`).  All decisions the code
  makes on durations are order comparisons and floor divisions at values
  exactly representable in both binary floating point and `ℚ`, so the
  embedding is faithful for every input the claims mention.
* Python truthiness on an optional float (`if audio_duration and ...`) is
  modelled by `pyTruthy`: `None` and `0.0` are falsy, everything else truthy.
* Exceptions swallowed by `try/except` become ordinary `false`/`none`
  results, mirroring the code, which converts them to `return False` /
  `return None`.
-/

namespace VideoApp

/-- Observable outcome of one plain subprocess invocation (used for the
audio-enhancement ffmpeg call): whether the wall-clock timeout fired and the
process exit code. -/
structure ProcResult where
  timedOut : Bool
  returncode : Int
  deriving DecidableEq, Repr

/-- Observable outcome of one `ffprobe` duration query (`get_audio_duration`,
app.py lines 29-43): timeout flag, exit code, and the result of
`float(result.stdout.strip())` — `none` when the output is unparsable, in
which case the Python `float` call raises and the bare `except` returns
`None`. -/
structure ProbeOutcome where
  timedOut : Bool
  returncode : Int
  parsedStdout : Option ℚ
  deriving DecidableEq, Repr

/-- Observable outcome of one video-encoding (or concatenation) ffmpeg
invocation: timeout flag, exit code, whether the output file exists after the
process ended, and its size in bytes. -/
structure EncodeOutcome where
  timedOut : Bool
  returncode : Int
  outputExists : Bool
  outputSize : Nat
  deriving DecidableEq, Repr

/-- `get_audio_duration` (app.py lines 29-43): returns the parsed float when
the probe exits zero; any timeout, non-zero exit, or parse failure falls
through to `return None`.  Totality of this function is the embedding of
"never raises an exception to its caller". -/
def get_audio_duration (r : ProbeOutcome) : Option ℚ :=
  if r.timedOut then none
  else if r.returncode = 0 then r.parsedStdout
  else none

/-- The ordered list of ffmpeg audio-filter invocations the enhancement code
path makes (app.py lines 45-65): exactly one subprocess call, with the
`-af volume=1.2,highpass=f=60` filter.  There is no second (basic) stage and
no pass-through copy stage in the source. -/
def enhance_stage_filters : List String := ["volume=1.2,highpass=f=60"]

/-- Timeout (seconds) passed to `subprocess.run` by `enhance_audio_basic`
(app.py line 56). -/
def enhance_timeout : Nat := 300

/-- Timeout (seconds) passed to `subprocess.run` for each chunk encode and
for the concatenation call (app.py lines 164 and 187). -/
def chunk_encode_timeout : Nat := 300

/-- Timeout (seconds) passed to `subprocess.run` by `get_audio_duration`
(app.py line 38). -/
def probe_timeout : Nat := 30

/-- `enhance_audio_basic` (app.py lines 45-65): one ffmpeg call; `False` on
timeout (the exception branch) or on non-zero exit, `True` otherwise. -/
def enhance_audio_basic (r : ProcResult) : Bool :=
  !r.timedOut && (r.returncode == 0)

/-- Success predicate of `create_video_ffmpeg` (app.py lines 97-117): the
process must not time out, must exit zero, and the output file must exist
with non-zero size; otherwise `False` is returned. -/
def create_video_ffmpeg_success (o : EncodeOutcome) : Bool :=
  !o.timedOut && (o.returncode == 0) && o.outputExists && (o.outputSize != 0)

/-- The single-shot ffmpeg command includes the `-shortest` flag
(app.py line 89), so its output duration is bounded by the audio. -/
def create_video_ffmpeg_has_shortest : Bool := true

/-- Per-chunk success test inside the loop of `create_video_in_chunks`
(app.py lines 164-168): only the exit code is inspected; a timeout raises
`TimeoutExpired`, which the enclosing `except` turns into `return False`.
The chunk output file is NOT checked for existence or size. -/
def chunk_step_success (o : EncodeOutcome) : Bool :=
  !o.timedOut && (o.returncode == 0)

/-- Python truthiness of the optional probed duration: `None` and `0.0` are
falsy (`if audio_duration and ...`, app.py lines 128, 292, 299, 309). -/
def pyTruthy : Option ℚ → Bool
  | none => false
  | some v => decide (v ≠ 0)

/-- The two encoding routes of `main`. -/
inductive EncPath where
  | singleShot
  | chunked
  deriving DecidableEq, Repr

/-- Route selection in `main` (app.py line 299):
`if audio_duration and audio_duration > 600 and chunk_processing` chooses the
chunked path, otherwise the single-shot path.  The retry at line 322 uses the
identical expression. -/
def pickPath (audio_duration : Option ℚ) (chunk_processing : Bool) : EncPath :=
  if pyTruthy audio_duration && decide (audio_duration.getD 0 > 600) && chunk_processing
  then .chunked else .singleShot

/-- Single-shot timeout computation in `main` (app.py lines 308-310 and
330-332): `timeout = 600; if audio_duration and audio_duration > 300:
timeout = max(timeout, int(audio_duration * 1.5))`.  Under the guard the
value is positive, so Python `int` truncation coincides with the floor. -/
def computeTimeout (audio_duration : Option ℚ) : ℚ :=
  if pyTruthy audio_duration && decide (audio_duration.getD 0 > 300)
  then max 600 (((audio_duration.getD 0) * (3 / 2)).floor : ℚ)
  else 600

/-- `num_chunks = int(total_duration // chunk_duration) + 1`
(app.py line 139).  Python float floor-division followed by `int` is the
mathematical floor `⌊total_duration / chunk_duration⌋` for the positive
chunk durations the app passes; it is written here as Euclidean integer
division of the cross products so that it evaluates by kernel reduction —
`num_chunks_eq_floor` below proves it equal to `⌊d / c⌋ + 1`. -/
def num_chunks (total_duration chunk_duration : ℚ) : Int :=
  total_duration.num * (chunk_duration.den : Int) /
    (chunk_duration.num * (total_duration.den : Int)) + 1

/-- Arguments of one chunk-encoding ffmpeg command (app.py lines 147-161):
`-ss` is `i * chunk_duration` (line 143), `-t` is always `chunk_duration`
(line 158), and the command contains no `-shortest` flag. -/
structure ChunkCmd where
  startTime : ℚ
  lengthArg : ℚ
  hasShortestFlag : Bool
  deriving DecidableEq, Repr

/-- The chunk command built for index `i` (app.py lines 143, 147-161). -/
def chunk_cmd (i : ℕ) (chunk_duration : ℚ) : ChunkCmd :=
  ⟨(i : ℚ) * chunk_duration, chunk_duration, false⟩

/-- All chunk commands a run of `create_video_in_chunks` with the given
probed duration would issue, in loop order (app.py lines 139-161). -/
def chunk_cmds (total_duration chunk_duration : ℚ) : List ChunkCmd :=
  (List.range (num_chunks total_duration chunk_duration).toNat).map
    (fun i => chunk_cmd i chunk_duration)

/-- The sequential chunk loop (app.py lines 142-170) over the first `n`
chunk indices: returns whether every chunk encode so far succeeded, together
with the indices of chunk files present on disk (a chunk file is on disk
exactly when its encode outcome reports the output file exists; chunks after
the first failure are never attempted). -/
def chunkLoop (outcomes : ℕ → EncodeOutcome) : ℕ → Bool × List ℕ
  | 0 => (true, [])
  | n + 1 =>
    match chunkLoop outcomes n with
    | (false, files) => (false, files)
    | (true, files) =>
      let o := outcomes n
      let files2 := if o.outputExists then files ++ [n] else files
      (chunk_step_success o, files2)

/-- Post-state of one `create_video_in_chunks` call: the returned boolean,
whether the `mkdtemp` chunk directory was left on disk (it is removed only by
the `shutil.rmtree` at line 199, which success paths alone reach), which
chunk files remain inside it, whether the concat list file remains, and
whether the canonical output file exists. -/
structure ChunksState where
  success : Bool
  tempDirLeaked : Bool
  diskChunkFiles : List ℕ
  listFileLeaked : Bool
  outputExists : Bool
  deriving DecidableEq, Repr

/-- `create_video_in_chunks` (app.py lines 123-205).  Control flow from the
source: a falsy probed duration returns `False` before the temp directory is
created; a chunk with non-zero exit (or a timeout, via the enclosing
`except`) returns `False` with the temp directory leaked; with more than one
chunk, a failed concatenation returns `False` with the directory, the chunk
files and the list file leaked; on concat success the directory is removed
and `os.path.exists(output_path)` is returned; with exactly one chunk the
file is copied to the output (`copy2` raises into the `except` when the
chunk file is missing) and the directory is removed. -/
def create_video_in_chunks (total_duration : Option ℚ) (chunk_duration : ℚ)
    (outcomes : ℕ → EncodeOutcome) (concatOutcome : EncodeOutcome) : ChunksState :=
  if !pyTruthy total_duration then
    ⟨false, false, [], false, false⟩
  else
    match chunkLoop outcomes (num_chunks (total_duration.getD 0) chunk_duration).toNat with
    | (false, files) => ⟨false, true, files, false, false⟩
    | (true, files) =>
      if (num_chunks (total_duration.getD 0) chunk_duration).toNat > 1 then
        if chunk_step_success concatOutcome then
          ⟨concatOutcome.outputExists, false, [], false, concatOutcome.outputExists⟩
        else
          ⟨false, true, files, true, false⟩
      else
        if (outcomes 0).outputExists then
          ⟨true, false, [], false, true⟩
        else
          ⟨false, true, files, false, false⟩

/-- The four paths unlinked (inside `try/except pass`, so deletion errors
are swallowed) by the `finally` block of `main` (app.py lines 377-384).
Chunk files and chunk temp directories are not among them. -/
def finally_cleanup_paths : List String :=
  ["temp_img_path", "temp_audio_path", "enhanced_audio_path", "output_video_path"]

/-- Environment of one `main` run: the outcome every subprocess invocation
would have.  `durEnhanced` / `durOriginal` are the probe results on the
enhanced-audio file and on the original uploaded audio file; the probe is
deterministic per file within a run.  `chunks1`/`concat1` are the outcomes
for the first chunked invocation (enhanced audio), `chunks2`/`concat2` for
the retry (original audio). -/
structure MainEnv where
  enhanceResult : ProcResult
  durEnhanced : Option ℚ
  durOriginal : Option ℚ
  chunk_processing : Bool
  chunk_size : ℕ
  singleShot1 : EncodeOutcome
  singleShot2 : EncodeOutcome
  chunks1 : ℕ → EncodeOutcome
  concat1 : EncodeOutcome
  chunks2 : ℕ → EncodeOutcome
  concat2 : EncodeOutcome

/-- Result of the `enhanced = enhance_audio_basic(...)` call (app.py
line 275). -/
def main_enhanced (env : MainEnv) : Bool :=
  enhance_audio_basic env.enhanceResult

/-- `audio_duration = get_audio_duration(enhanced_audio_path)` (app.py
line 291): when enhancement failed, `enhanced_audio_path` was reassigned to
the original audio path (line 278), so the probe then reads the original
file. -/
def main_audio_duration (env : MainEnv) : Option ℚ :=
  if main_enhanced env then env.durEnhanced else env.durOriginal

/-- `chunk_duration = chunk_size * 60` (app.py lines 304 and 327); the
slider value is in minutes and the multiplication is Python integer
arithmetic. -/
def main_chunk_seconds (env : MainEnv) : ℚ :=
  ((env.chunk_size * 60 : ℕ) : ℚ)

/-- The route taken by the first encoding attempt (app.py line 299). -/
def main_path (env : MainEnv) : EncPath :=
  pickPath (main_audio_duration env) env.chunk_processing

/-- State of the first chunked invocation, on the enhanced audio (app.py
lines 300-305); `create_video_in_chunks` re-probes the same file, so it sees
the same duration `main` saw. -/
def main_chunkState1 (env : MainEnv) : ChunksState :=
  create_video_in_chunks (main_audio_duration env) (main_chunk_seconds env)
    env.chunks1 env.concat1

/-- State of the retry chunked invocation, on the original audio (app.py
lines 323-328); inside it the probe reads the original file. -/
def main_chunkState2 (env : MainEnv) : ChunksState :=
  create_video_in_chunks env.durOriginal (main_chunk_seconds env)
    env.chunks2 env.concat2

/-- Success of the first encoding attempt (app.py lines 296-317). -/
def main_attempt1_success (env : MainEnv) : Bool :=
  match main_path env with
  | .chunked => (main_chunkState1 env).success
  | .singleShot => create_video_ffmpeg_success env.singleShot1

/-- Guard of the retry block: `if not success and enhanced` (app.py
line 320). -/
def main_retried (env : MainEnv) : Bool :=
  !main_attempt1_success env && main_enhanced env

/-- Success of the retry attempt with the original audio (app.py lines
320-339); the route guard at line 322 is the identical expression to
line 299, so the same path is taken. -/
def main_attempt2_success (env : MainEnv) : Bool :=
  match main_path env with
  | .chunked => (main_chunkState2 env).success
  | .singleShot => create_video_ffmpeg_success env.singleShot2

/-- Observable result of one `main` run. -/
structure MainResult where
  success : Bool
  attempts : ℕ
  firstAudioOriginal : Bool
  retried : Bool
  firstPath : EncPath
  retryPath : Option EncPath
  leakedChunkFiles : List ℕ
  tempDirsLeaked : ℕ
  deriving DecidableEq, Repr

/-- One run of the `Make Video` handler in `main` (app.py lines 254-387):
first encoding attempt on the enhanced audio (or the original audio when
enhancement failed), at most one retry with the original audio and the same
route guard, final `success` flag, and which chunk-directory artifacts
remain on disk after the `finally` cleanup (which removes only
`finally_cleanup_paths`). -/
def mainRun (env : MainEnv) : MainResult :=
  ⟨if main_retried env then main_attempt2_success env else main_attempt1_success env,
   if main_retried env then 2 else 1,
   !main_enhanced env,
   main_retried env,
   main_path env,
   if main_retried env then some (main_path env) else none,
   (if main_path env == .chunked then (main_chunkState1 env).diskChunkFiles else []) ++
     (if main_retried env && (main_path env == .chunked)
      then (main_chunkState2 env).diskChunkFiles else []),
   (if main_path env == .chunked && (main_chunkState1 env).tempDirLeaked then 1 else 0) +
     (if main_retried env && (main_path env == .chunked) && (main_chunkState2 env).tempDirLeaked
      then 1 else 0)⟩

/-- An encode outcome that succeeded at the process level and wrote output. -/
def okOutcome : EncodeOutcome := ⟨false, 0, true, 1024⟩

/-- An encode outcome that exited non-zero and wrote nothing. -/
def failOutcome : EncodeOutcome := ⟨false, 1, false, 0⟩

/-- A process outcome with zero exit and no timeout. -/
def okProc : ProcResult := ⟨false, 0⟩

/-- A process outcome with non-zero exit. -/
def failProc : ProcResult := ⟨false, 1⟩

/-- Run environment for a leak scenario: enhancement succeeds, the enhanced
audio probes at 700 s, chunked processing is on with a 600 s chunk size,
chunk 0 encodes fine, chunk 1 exits non-zero after writing a file, and the
retry run fails on its first chunk. -/
def envChunkLeak : MainEnv :=
  ⟨okProc, some 700, some 700, true, 10, failOutcome, failOutcome,
   fun i => if i == 0 then okOutcome else ⟨false, 1, true, 50⟩, okOutcome,
   fun _ => failOutcome, okOutcome⟩

/-- Run environment in which every encoding attempt fails: enhancement
succeeds, 100 s audio (single-shot route), both single-shot invocations
fail. -/
def envAllFail : MainEnv :=
  ⟨okProc, some 100, some 100, true, 10, failOutcome, failOutcome,
   fun _ => failOutcome, failOutcome, fun _ => failOutcome, failOutcome⟩

/-- Run environment in which the enhancement subprocess exits non-zero and
the single encoding attempt succeeds. -/
def envEnhFail : MainEnv :=
  ⟨failProc, some 100, some 100, true, 10, okOutcome, okOutcome,
   fun _ => okOutcome, okOutcome, fun _ => okOutcome, okOutcome⟩

/-- Faithfulness of the executable chunk count: for every positive chunk
duration, `num_chunks d c` is the floor of the rational division plus one,
exactly Python's `int(total_duration // chunk_duration) + 1`. -/
theorem num_chunks_eq_floor (d c : ℚ) (hc : 0 < c) :
    num_chunks d c = ⌊d / c⌋ + 1 := by
  have hcnum : 0 < c.num := Rat.num_pos.mpr hc
  have hdden : ((d.den : ℚ)) ≠ 0 := Nat.cast_ne_zero.mpr d.den_nz
  have hcden : ((c.den : ℚ)) ≠ 0 := Nat.cast_ne_zero.mpr c.den_nz
  have hcnumQ : ((c.num : ℚ)) ≠ 0 := Int.cast_ne_zero.mpr (ne_of_gt hcnum)
  have hpos : (0 : ℤ) ≤ c.num * (d.den : ℤ) := by positivity
  have ht : (((c.num * (d.den : ℤ)).toNat : ℤ)) = c.num * (d.den : ℤ) :=
    Int.toNat_of_nonneg hpos
  have htQ : (((c.num * (d.den : ℤ)).toNat : ℕ) : ℚ) = ((c.num * (d.den : ℤ) : ℤ) : ℚ) := by
    exact_mod_cast congrArg (fun z : ℤ => (z : ℚ)) ht
  have hmul : ∀ q : ℚ, (q.num : ℚ) = q * (q.den : ℚ) := fun q =>
    (div_eq_iff (Nat.cast_ne_zero.mpr q.den_nz)).mp (Rat.num_div_den q)
  have key : d / c =
      ((d.num * (c.den : ℤ) : ℤ) : ℚ) / (((c.num * (d.den : ℤ)).toNat : ℕ) : ℚ) := by
    rw [htQ]
    push_cast
    rw [div_eq_div_iff (ne_of_gt hc) (mul_ne_zero hcnumQ hdden)]
    rw [hmul d, hmul c]
    ring
  calc num_chunks d c
      = d.num * (c.den : ℤ) / (c.num * (d.den : ℤ)) + 1 := rfl
    _ = d.num * (c.den : ℤ) / (((c.num * (d.den : ℤ)).toNat : ℤ)) + 1 := by rw [ht]
    _ = ⌊d / c⌋ + 1 := by rw [key, Rat.floor_intCast_div_natCast]

/-- C1 (code evaluated at the failing input): for 1800 s of audio and a
600 s chunk size the code's `int(total_duration // chunk_duration) + 1`
yields 4 chunk commands, the fourth starting at offset 1800 — one past the
end of the audio — while the claimed count `ceil(1800/600)` is 3. -/
theorem chunk_count_off_by_one :
    num_chunks 1800 600 = 4 ∧ (chunk_cmds 1800 600).length = 4 ∧
    ⌈(1800 : ℚ) / 600⌉ = 3 ∧ (chunk_cmd 3 600).startTime = 1800 := by
  refine ⟨by decide, by decide, ?_, ?_⟩
  · rw [show (1800 : ℚ) / 600 = 3 by norm_num]
    simp
  · norm_num [chunk_cmd]

/-- C2 counterexample: a run in which chunk 1 of the chunked path exits
non-zero leaves the chunk temp directory of each chunked invocation on disk
together with the already-written chunk files (indices 0 and 1), because
`shutil.rmtree` is reached only on success — the claim that all chunk files
are removed before control returns is false. -/
theorem chunk_dir_leak_on_failure :
    (mainRun envChunkLeak).leakedChunkFiles = [0, 1] ∧
    (mainRun envChunkLeak).tempDirsLeaked = 2 ∧
    (mainRun envChunkLeak).success = false := by decide

/-- C2 amended: the `finally` block always removes exactly the four
top-level temporary files (deletion errors swallowed), but the chunk temp
directory and its contents are removed only when the chunked invocation runs
to a successful completion; every successful `create_video_in_chunks` call
leaves no chunk file, no list file and no temp directory behind. -/
theorem cleanup_only_on_chunked_success :
    (∀ (td : Option ℚ) (c : ℚ) (outs : ℕ → EncodeOutcome) (co : EncodeOutcome),
      (create_video_in_chunks td c outs co).success = true →
        (create_video_in_chunks td c outs co).tempDirLeaked = false ∧
        (create_video_in_chunks td c outs co).diskChunkFiles = [] ∧
        (create_video_in_chunks td c outs co).listFileLeaked = false) ∧
    finally_cleanup_paths.length = 4 := by
  constructor
  · intro td c outs co
    unfold create_video_in_chunks
    split
    · intro h; simp at h
    · split
      · intro h; simp at h
      · split
        · split
          · intro h; exact ⟨rfl, rfl, rfl⟩
          · intro h; simp at h
        · split
          · intro h; exact ⟨rfl, rfl, rfl⟩
          · intro h; simp at h
  · rfl

/-- C2 witness: a successful single-chunk run evaluated concretely. -/
theorem cleanup_only_on_chunked_success_witness :
    (create_video_in_chunks (some 100) 600 (fun _ => okOutcome) okOutcome).tempDirLeaked = false ∧
    (create_video_in_chunks (some 100) 600 (fun _ => okOutcome) okOutcome).diskChunkFiles = [] ∧
    (create_video_in_chunks (some 100) 600 (fun _ => okOutcome) okOutcome).listFileLeaked = false :=
  cleanup_only_on_chunked_success.1 (some 100) 600 (fun _ => okOutcome) okOutcome (by decide)

/-- C3 counterexample: in a run where enhancement succeeds and every
encoding invocation fails, the run ends in failure after exactly 2 attempts
(primary plus the retry with the original audio); the claimed additional
minimal fallback invocation — a third attempt — does not exist in the
code. -/
theorem no_minimal_fallback_two_attempts :
    (mainRun envAllFail).success = false ∧ (mainRun envAllFail).attempts = 2 := by decide

/-- C3 amended: the orchestrator makes at most 2 encoding attempts and never
loops; when it retries, the retry reuses the identical route guard (same
strategy-selection logic, original audio), and a failed run performed
exactly 2 attempts when enhancement had succeeded and exactly 1 otherwise.
There is no minimal-fallback third attempt. -/
theorem retry_ladder_bounded (env : MainEnv) :
    (mainRun env).attempts ≤ 2 ∧
    ((mainRun env).retried = true →
      (mainRun env).attempts = 2 ∧
      (mainRun env).retryPath = some ((mainRun env).firstPath)) ∧
    ((mainRun env).success = false →
      (mainRun env).attempts = if enhance_audio_basic env.enhanceResult then 2 else 1) := by
  refine ⟨?_, ?_, ?_⟩
  · dsimp only [mainRun]
    split <;> decide
  · dsimp only [mainRun]
    intro h
    simp [h]
  · dsimp only [mainRun]
    cases he : enhance_audio_basic env.enhanceResult <;>
      cases hs : main_attempt1_success env <;>
        simp [main_retried, main_enhanced, he, hs]

/-- C3 witness: the all-attempts-fail environment, retried and capped at two
attempts. -/
theorem retry_ladder_bounded_witness :
    (mainRun envAllFail).attempts = 2 ∧
    (mainRun envAllFail).retryPath = some ((mainRun envAllFail).firstPath) :=
  (retry_ladder_bounded envAllFail).2.1 (by decide)

/-- C4 counterexample: with total duration 900 and chunk size 600, segment 1
is encoded with a `-t` length argument of 600, not
`min(600, 900 - 600) = 300` as claimed. -/
theorem chunk_length_not_min :
    (chunk_cmd 1 600).lengthArg ≠ min 600 ((900 : ℚ) - (chunk_cmd 1 600).startTime) ∧
    (chunk_cmd 1 600).lengthArg = 600 ∧
    min 600 ((900 : ℚ) - (chunk_cmd 1 600).startTime) = 300 := by
  refine ⟨by norm_num [chunk_cmd, min_def], rfl, by norm_num [chunk_cmd, min_def]⟩

/-- C4 amended: segment `i` is encoded with start offset `i * c` and a
constant requested length `c` for every segment (no `min` with the remaining
audio is computed, and the chunk command carries no `-shortest` flag); a
failure of any chunk encode aborts the whole job with the returned result
false and no video written at the output path. -/
theorem chunk_cmd_structure_and_abort (i : ℕ) (c : ℚ) (td : Option ℚ)
    (outs : ℕ → EncodeOutcome) (co : EncodeOutcome) :
    (chunk_cmd i c).startTime = (i : ℚ) * c ∧
    (chunk_cmd i c).lengthArg = c ∧
    (chunk_cmd i c).hasShortestFlag = false ∧
    ((chunkLoop outs (num_chunks (td.getD 0) c).toNat).1 = false →
      (create_video_in_chunks td c outs co).success = false ∧
      (create_video_in_chunks td c outs co).outputExists = false) := by
  refine ⟨rfl, rfl, rfl, ?_⟩
  intro h
  unfold create_video_in_chunks
  split
  · exact ⟨rfl, rfl⟩
  · split
    · exact ⟨rfl, rfl⟩
    · rename_i files heq
      rw [heq] at h
      simp at h

/-- C4 witness: segment 2 of a 600 s chunking evaluated concretely, and an
aborted job (every chunk fails) for a 700 s duration. -/
theorem chunk_cmd_structure_and_abort_witness :
    (chunk_cmd 2 600).startTime = (2 : ℚ) * 600 ∧
    (chunk_cmd 2 600).lengthArg = 600 ∧
    (chunk_cmd 2 600).hasShortestFlag = false ∧
    ((create_video_in_chunks (some 700) 600 (fun _ => failOutcome) okOutcome).success = false ∧
     (create_video_in_chunks (some 700) 600 (fun _ => failOutcome) okOutcome).outputExists = false) := by
  have h := chunk_cmd_structure_and_abort 2 600 (some 700) (fun _ => failOutcome) okOutcome
  exact ⟨h.1, h.2.1, h.2.2.1, h.2.2.2 (by decide)⟩

/-- C5 counterexample: a chunk encode that exits zero without ever writing
an output file is declared a success by the per-chunk test, while the
single-shot test rejects the same outcome — so not every video-encoding
invocation checks all three conditions. -/
theorem chunk_success_ignores_output :
    chunk_step_success ⟨false, 0, false, 0⟩ = true ∧
    (⟨false, 0, false, 0⟩ : EncodeOutcome).outputExists = false ∧
    create_video_ffmpeg_success ⟨false, 0, false, 0⟩ = false := by decide

/-- C5 amended: the single-shot encoder declares success exactly when the
process did not time out, exited zero, and the output file exists with
non-zero size; each chunk encode (and the concatenation) is declared
successful on a zero exit without timeout alone, with no output-file
check. -/
theorem encode_success_conditions (o : EncodeOutcome) :
    (create_video_ffmpeg_success o = true ↔
      o.timedOut = false ∧ o.returncode = 0 ∧ o.outputExists = true ∧ o.outputSize ≠ 0) ∧
    (chunk_step_success o = true ↔ o.timedOut = false ∧ o.returncode = 0) := by
  obtain ⟨t, rc, ex, sz⟩ := o
  cases t <;> cases ex <;>
    simp [create_video_ffmpeg_success, chunk_step_success, and_assoc]

/-- C6: with chunked processing enabled and a known probed duration `d`, the
route is chunked exactly when `600 < d` and single-shot exactly when
`d ≤ 600`; the boundary `d = 600` takes the single-shot path. -/
theorem route_threshold :
    (∀ d : ℚ, pickPath (some d) true = .chunked ↔ 600 < d) ∧
    (∀ d : ℚ, pickPath (some d) true = .singleShot ↔ d ≤ 600) ∧
    pickPath (some 600) true = .singleShot := by
  have key : ∀ d : ℚ, pickPath (some d) true = .chunked ↔ 600 < d := by
    intro d
    by_cases h : (600 : ℚ) < d
    · have hd : d ≠ 0 := ne_of_gt (lt_trans (by norm_num) h)
      simp [pickPath, pyTruthy, h, hd]
    · simp [pickPath, pyTruthy, h]
  have tot : ∀ d : ℚ, pickPath (some d) true = .chunked ∨
      pickPath (some d) true = .singleShot := by
    intro d
    unfold pickPath
    split
    · exact Or.inl rfl
    · exact Or.inr rfl
  refine ⟨key, ?_, ?_⟩
  · intro d
    constructor
    · intro h
      by_contra hle
      have h6 : (600 : ℚ) < d := lt_of_not_le hle
      have := (key d).mpr h6
      rw [h] at this
      exact absurd this (by simp)
    · intro h
      rcases tot d with hc | hs
      · exact absurd ((key d).mp hc) (not_lt.mpr h)
      · exact hs
  · exact by decide

/-- C7 counterexample: the enhancement code path consists of a single filter
invocation, not the claimed three ordered stages, and it can fail (non-zero
exit gives `False`) rather than being guaranteed to succeed by a
pass-through copy. -/
theorem enhancement_single_stage :
    enhance_stage_filters.length = 1 ∧
    enhance_audio_basic failProc = false := by decide

/-- C7 amended: the enhancement stage makes exactly one ffmpeg attempt with
the `volume=1.2,highpass=f=60` filter under a 300 s timeout; on failure the
run is not aborted — the orchestrator still performs at least one encoding
attempt, using the original audio file in place of the enhanced one (no
basic-filter stage and no pass-through copy exist, and no new file is
written on the fallback). -/
theorem enhancement_never_fails_run :
    enhance_stage_filters = ["volume=1.2,highpass=f=60"] ∧
    enhance_timeout = 300 ∧
    ∀ env : MainEnv, 1 ≤ (mainRun env).attempts ∧
      (enhance_audio_basic env.enhanceResult = false →
        (mainRun env).firstAudioOriginal = true) := by
  refine ⟨rfl, rfl, fun env => ⟨?_, ?_⟩⟩
  · dsimp only [mainRun]
    split <;> decide
  · intro h
    dsimp only [mainRun]
    simp [main_enhanced, h]

/-- C7 witness: the failed-enhancement environment still encodes once, with
the original audio. -/
theorem enhancement_never_fails_run_witness :
    1 ≤ (mainRun envEnhFail).attempts ∧ (mainRun envEnhFail).firstAudioOriginal = true :=
  ⟨(enhancement_never_fails_run.2.2 envEnhFail).1,
   (enhancement_never_fails_run.2.2 envEnhFail).2 (by decide)⟩

/-- C8: the duration probe is total (never raises to its caller) and
returns `none` on any timeout, non-zero exit, or unparsable output; and with
an unknown duration the pipeline routes single-shot with the 600 s timeout
floor. -/
theorem probe_fails_soft (r : ProbeOutcome) (cp : Bool)
    (h : r.timedOut = true ∨ r.returncode ≠ 0 ∨ r.parsedStdout = none) :
    get_audio_duration r = none ∧
    pickPath none cp = .singleShot ∧
    computeTimeout none = 600 := by
  refine ⟨?_, rfl, rfl⟩
  unfold get_audio_duration
  rcases h with h | h | h
  · simp [h]
  · simp [h]
  · simp [h]

/-- C8 witness: a probe that exits with code 1. -/
theorem probe_fails_soft_witness :
    get_audio_duration ⟨false, 1, some 5⟩ = none ∧
    pickPath none true = .singleShot ∧
    computeTimeout none = 600 :=
  probe_fails_soft ⟨false, 1, some 5⟩ true (Or.inr (Or.inl (by decide)))

/-- C9 counterexample: a probed duration of exactly 0 is not handled as a
state distinct from Unknown — the truthiness guard maps `some 0` and `none`
to the same value, so path selection and timeout computation behave
identically on the two, contradicting the claim that the behavior on 0.0 is
not that of Unknown. -/
theorem zero_duration_behaves_as_unknown :
    pickPath (some 0) true = pickPath none true ∧
    computeTimeout (some 0) = computeTimeout none ∧
    pyTruthy (some 0) = pyTruthy none := by decide

/-- C9 amended: the orchestrator conflates a probed duration of exactly 0.0
with Unknown (every guard tests Python truthiness, under which both are
falsy); both route single-shot with the 600 s timeout — which coincides with
what the comparisons would give for a known zero duration, so the conflation
produces no observable divergence in path selection or timeout
computation. -/
theorem zero_duration_conflated (cp : Bool) :
    pickPath (some 0) cp = .singleShot ∧
    pickPath (some 0) cp = pickPath none cp ∧
    computeTimeout (some 0) = 600 ∧
    computeTimeout (some 0) = computeTimeout none := by
  cases cp <;> exact ⟨by decide, by decide, by decide, by decide⟩

/-- C10: when audio enhancement fails, the run performs exactly one encoding
attempt, that attempt uses the original audio, and no retry happens. -/
theorem enh_failed_single_attempt (env : MainEnv)
    (h : enhance_audio_basic env.enhanceResult = false) :
    (mainRun env).attempts = 1 ∧
    (mainRun env).firstAudioOriginal = true ∧
    (mainRun env).retried = false := by
  have he : main_enhanced env = false := h
  dsimp only [mainRun]
  simp [main_retried, he]

/-- C10 witness: the failed-enhancement environment evaluated concretely. -/
theorem enh_failed_single_attempt_witness :
    (mainRun envEnhFail).attempts = 1 ∧
    (mainRun envEnhFail).firstAudioOriginal = true ∧
    (mainRun envEnhFail).retried = false :=
  enh_failed_single_attempt envEnhFail (by decide)

end VideoApp
